import Mathlib

/-
Verification of the NTAG203 jumper-cable tag firmware
(src/rw-NTAG203-rfid-tag.ino): record codec, XOR checksum,
page-chunked write, block read, and the write-then-scan sequencer.
-/

namespace NTag

/-- sizeof(JumperCableData): char type[4] + uint8_t id + uint8_t checksum = 6 bytes. -/
def sizeofData : Nat := 6

/-- Bytes per NTAG203 page (MIFARE Ultralight page size). -/
def pageSize : Nat := 4

/-- const uint8_t START_PAGE = 4. -/
def START_PAGE : Nat := 4

/-- const uint8_t NUM_TAGS = 4. -/
def NUM_TAGS : Nat := 4

/-- struct JumperCableData: the char type[4] buffer is modelled as its 4 bytes. -/
structure JumperCableData where
  type : List Nat
  id : Nat
  checksum : Nat
deriving DecidableEq

/-- The byte-for-byte packing of the struct performed by
memcpy(byte_array, &data, sizeof(data)) in writeStructToTag. -/
def serialize (d : JumperCableData) : List Nat :=
  d.type ++ [d.id, d.checksum]

/-- The byte-for-byte unpacking performed by memcpy(&data, rawData, sizeof(data))
in readStructFromTag: the first 4 bytes are the type buffer, byte 4 the id,
byte 5 the checksum. -/
def deserialize (b : List Nat) : JumperCableData :=
  { type := List.take 4 b, id := b.getD 4 0, checksum := b.getD 5 0 }

/-- uint8_t calculateChecksum(const uint8_t *data, uint8_t length):
XOR-reduce data[0 .. length). -/
def calculateChecksum (data : List Nat) (length : Nat) : Nat :=
  List.foldl (fun sum b => sum ^^^ b) 0 (List.take length data)

/-- The checksum validation performed in readStructFromTag: recompute
calculateChecksum over the first sizeof(data) - 1 bytes of the struct and
compare with the stored checksum field. -/
def validate (d : JumperCableData) : Bool :=
  calculateChecksum (serialize d) (sizeofData - 1) == d.checksum

/-- totalPages in writeStructToTag: (sizeof(data) + 3) / 4, rounding up to
whole pages. -/
def totalPages : Nat := (sizeofData + 3) / 4

/-- The 4-byte page buffer built for page index i in writeStructToTag:
zero-initialized, then pageData[j] = byte_array[i*4 + j] whenever
i*4 + j < sizeof(data). -/
def pageData (byteArray : List Nat) (i : Nat) : List Nat :=
  List.map (fun j => if i * 4 + j < sizeofData then byteArray.getD (i * 4 + j) 0 else 0)
    (List.range 4)

/-- The for-loop of writeStructToTag, recorded as the trace of issued
single-page writes. The loop body issues MIFARE_Ultralight_Write for page
startPage + i with the page buffer, receives a status from the collaborator,
reports it, and continues to the next page unconditionally. Each trace entry
is (page, page buffer, status returned). Fuel counts the remaining
iterations. -/
def writePagesAux (byteArray : List Nat) (startPage : Nat)
    (status : Nat → List Nat → Bool) : Nat → Nat → List (Nat × List Nat × Bool)
  | 0, _ => []
  | fuel + 1, i =>
    (startPage + i, pageData byteArray i, status (startPage + i) (pageData byteArray i)) ::
      writePagesAux byteArray startPage status fuel (i + 1)

/-- void writeStructToTag(const JumperCableData &data, uint8_t startPage):
serializes the struct, then writes totalPages consecutive pages starting at
startPage. The collaborator is modelled as the status function giving each
page write's result. -/
def writeStructToTag (d : JumperCableData) (startPage : Nat)
    (status : Nat → List Nat → Bool) : List (Nat × List Nat × Bool) :=
  writePagesAux (serialize d) startPage status totalPages 0

/-- The (page, buffer) pairs actually issued to the reader, forgetting the
returned statuses. -/
def issuedWrites (log : List (Nat × List Nat × Bool)) : List (Nat × List Nat) :=
  List.map (fun t => (t.1, t.2.1)) log

/-- C1: deserializing the byte sequence produced by serializing a record R
yields a record equal to R; the struct-to-bytes packing before a write and
the bytes-to-struct unpacking after a read are mutual inverses on the fixed
6-byte length. -/
theorem C1_serialize_deserialize_roundtrip (d : JumperCableData)
    (h : d.type.length = 4) : deserialize (serialize d) = d := by
  obtain ⟨t, i, c⟩ := d
  simp only at h
  rcases t with _ | ⟨a, _ | ⟨b, _ | ⟨u, _ | ⟨v, _ | ⟨w, t⟩⟩⟩⟩⟩ <;>
    simp_all [serialize, deserialize]

/-- Witness for C1 at the concrete record POS / id 1 / checksum 77. -/
theorem C1_witness :
    (JumperCableData.mk [80, 79, 83, 0] 1 77).type.length = 4 ∧
      deserialize (serialize (JumperCableData.mk [80, 79, 83, 0] 1 77)) =
        JumperCableData.mk [80, 79, 83, 0] 1 77 :=
  ⟨by decide, C1_serialize_deserialize_roundtrip _ (by decide)⟩

/-- C2: for every byte sequence B of the fixed record length 6, the record
deserialized from B passes checksum validation iff the last byte of B equals
the XOR-reduction of the preceding bytes of B. -/
theorem C2_validate_iff_last_byte_xor (B : List Nat) (h : B.length = 6) :
    validate (deserialize B) = true ↔
      List.foldl (fun sum b => sum ^^^ b) 0 (List.dropLast B) = B.getD 5 0 := by
  rcases B with _ | ⟨b0, _ | ⟨b1, _ | ⟨b2, _ | ⟨b3, _ | ⟨b4, _ | ⟨b5, rest⟩⟩⟩⟩⟩⟩ <;>
    simp_all [validate, deserialize, serialize, calculateChecksum, sizeofData]

/-- Witness for C2 at the concrete byte sequence of the POS / id 1 record. -/
theorem C2_witness :
    ([80, 79, 83, 0, 1, 77] : List Nat).length = 6 ∧
      (validate (deserialize [80, 79, 83, 0, 1, 77]) = true ↔
        List.foldl (fun sum b => sum ^^^ b) 0
            (List.dropLast [80, 79, 83, 0, 1, 77]) =
          ([80, 79, 83, 0, 1, 77] : List Nat).getD 5 0) :=
  ⟨by decide, C2_validate_iff_last_byte_xor [80, 79, 83, 0, 1, 77] (by decide)⟩

/-- C3: for a record of serialized length 6 and page size 4, writeStructToTag
issues exactly ceil(6/4) = 2 single-page writes to consecutive pages starting
at startPage; the first page buffer holds the 4 type bytes, the second holds
the id and checksum bytes followed by zero bytes at every offset at or beyond
the serialized length. -/
theorem C3_page_chunking (d : JumperCableData) (startPage : Nat)
    (status : Nat → List Nat → Bool) (h : d.type.length = 4) :
    issuedWrites (writeStructToTag d startPage status) =
        [(startPage, d.type), (startPage + 1, [d.id, d.checksum, 0, 0])] ∧
      (writeStructToTag d startPage status).length = (sizeofData + 3) / 4 := by
  obtain ⟨t, i, c⟩ := d
  simp only at h
  rcases t with _ | ⟨a, _ | ⟨b, _ | ⟨u, _ | ⟨v, _ | ⟨w, t⟩⟩⟩⟩⟩ <;>
    simp_all [issuedWrites, writeStructToTag, writePagesAux, pageData, serialize,
      totalPages, sizeofData, List.range_succ]

/-- Witness for C3 at the concrete record POS / id 1 / checksum 77,
start page 4, and the all-success collaborator. -/
theorem C3_witness :
    (JumperCableData.mk [80, 79, 83, 0] 1 77).type.length = 4 ∧
      (issuedWrites
            (writeStructToTag (JumperCableData.mk [80, 79, 83, 0] 1 77) 4
              (fun _ _ => true)) =
          [(4, [80, 79, 83, 0]), (4 + 1, [1, 77, 0, 0])] ∧
        (writeStructToTag (JumperCableData.mk [80, 79, 83, 0] 1 77) 4
              (fun _ _ => true)).length = (sizeofData + 3) / 4) :=
  ⟨by decide, C3_page_chunking _ 4 (fun _ _ => true) (by decide)⟩

/-- Pages and buffers produced by the write loop do not depend on the statuses
the collaborator returns, and the loop always runs for the full fuel. -/
theorem writePagesAux_status_independent (byteArray : List Nat) (startPage : Nat)
    (st1 st2 : Nat → List Nat → Bool) :
    ∀ fuel i,
      issuedWrites (writePagesAux byteArray startPage st1 fuel i) =
          issuedWrites (writePagesAux byteArray startPage st2 fuel i) ∧
        (writePagesAux byteArray startPage st1 fuel i).length = fuel := by
  intro fuel
  induction fuel with
  | zero => intro i; simp [writePagesAux, issuedWrites]
  | succ n ih =>
    intro i
    simp [writePagesAux, issuedWrites]
    have h := ih (i + 1)
    simp [issuedWrites] at h
    exact h

/-- C4: the number, order and content of the page writes issued by
writeStructToTag are independent of the per-page statuses returned by the
collaborator: a failing page is reported and the sequence continues, with no
abort and no retry, so all ceil(6/4) page writes are always performed. -/
theorem C4_failures_nonfatal (d : JumperCableData) (startPage : Nat)
    (st1 st2 : Nat → List Nat → Bool) :
    issuedWrites (writeStructToTag d startPage st1) =
        issuedWrites (writeStructToTag d startPage st2) ∧
      (writeStructToTag d startPage st1).length = totalPages :=
  writePagesAux_status_independent (serialize d) startPage st1 st2 totalPages 0

/-- Outcome of readStructFromTag: either the read failed, or a record was
reconstructed together with the result of its checksum validation. -/
inductive ReadOutcome where
  | readError : ReadOutcome
  | result : JumperCableData → Bool → ReadOutcome
deriving DecidableEq

/-- What one call of readStructFromTag does: its outcome plus whether it
halted the tag (PICC_HaltA) and reset authentication (PCD_StopCrypto1). -/
structure ReadLog where
  outcome : ReadOutcome
  halted : Bool
  stoppedCrypto : Bool
deriving DecidableEq

/-- void readStructFromTag(uint8_t startPage): the collaborator's
MIFARE_Read is modelled as an Option (none = bad status, some buffer = the
bytes read). On success the buffer is truncated to sizeof(JumperCableData)
bytes, cast to the struct, and the checksum is recomputed over the first
sizeof - 1 bytes and compared with the stored checksum byte; on failure only
the error is reported. PICC_HaltA and PCD_StopCrypto1 run in either case. -/
def readStructFromTag (readResult : Option (List Nat)) : ReadLog :=
  match readResult with
  | some buffer =>
    let rawData := List.take sizeofData buffer
    let data := deserialize rawData
    let expectedChecksum := calculateChecksum (serialize data) (sizeofData - 1)
    { outcome := ReadOutcome.result data (expectedChecksum == data.checksum),
      halted := true, stoppedCrypto := true }
  | none =>
    { outcome := ReadOutcome.readError, halted := true, stoppedCrypto := true }

/-- C5: readStructFromTag returns a read error (and no record) exactly when
the collaborator's block read fails; on success it truncates the buffer to
the record's 6-byte length, deserializes, validates, and returns the record
with its validity bit even when the checksum mismatches; and in every case
it halts the tag and resets authentication afterward. -/
theorem C5_read_error_handling :
    (∀ readResult : Option (List Nat),
        ((readStructFromTag readResult).outcome = ReadOutcome.readError ↔
          readResult = none)) ∧
      (∀ buffer : List Nat,
        (readStructFromTag (some buffer)).outcome =
          ReadOutcome.result (deserialize (List.take sizeofData buffer))
            (validate (deserialize (List.take sizeofData buffer)))) ∧
      (∀ readResult : Option (List Nat),
        (readStructFromTag readResult).halted = true ∧
          (readStructFromTag readResult).stoppedCrypto = true) := by
  refine ⟨fun readResult => ?_, fun buffer => ?_, fun readResult => ?_⟩
  · cases readResult <;> simp [readStructFromTag]
  · simp [readStructFromTag, validate]
  · cases readResult <;> simp [readStructFromTag]

/-- Tag memory: a byte-addressable store; page p occupies bytes
4*p .. 4*p+3. MIFARE_Ultralight_Write of a 4-byte buffer to page p. -/
def writePageMem (mem : Nat → Nat) (page : Nat) (data : List Nat) : Nat → Nat :=
  fun a => if 4 * page ≤ a ∧ a < 4 * page + 4 then data.getD (a - 4 * page) 0 else mem a

/-- Apply a sequence of issued page writes to tag memory, in order. -/
def applyWrites (mem : Nat → Nat) (ws : List (Nat × List Nat)) : Nat → Nat :=
  List.foldl (fun m w => writePageMem m w.1 w.2) mem ws

/-- MIFARE_Read: returns 16 bytes (4 consecutive pages) starting at the given
page. -/
def readBlock (mem : Nat → Nat) (page : Nat) : List Nat :=
  List.map (fun k => mem (4 * page + k)) (List.range 16)

/-- tags[i].checksum = calculateChecksum((uint8_t *)&tags[i], sizeof - 1),
as performed by writeAllTags just before each write. -/
def setChecksum (d : JumperCableData) : JumperCableData :=
  { d with checksum := calculateChecksum (serialize d) (sizeofData - 1) }

/-- C8: end-to-end over the tag-memory model: computing the checksum of the
record type POS (bytes 80, 79, 83, 0), id 1 just before the write, writing it
with writeStructToTag at START_PAGE, and reading back with readStructFromTag
from the same page yields a record with id 1 and type POS whose checksum
validation succeeds. -/
theorem C8_write_then_read_roundtrip :
    (readStructFromTag (some (readBlock
          (applyWrites (fun _ => 0)
            (issuedWrites
              (writeStructToTag (setChecksum (JumperCableData.mk [80, 79, 83, 0] 1 0))
                START_PAGE (fun _ _ => true))))
          START_PAGE))).outcome =
        ReadOutcome.result (JumperCableData.mk [80, 79, 83, 0] 1 77) true ∧
      (JumperCableData.mk [80, 79, 83, 0] 1 77).id = 1 ∧
      (JumperCableData.mk [80, 79, 83, 0] 1 77).type = [80, 79, 83, 0] ∧
      validate (JumperCableData.mk [80, 79, 83, 0] 1 77) = true := by
  decide

/-- XOR by a nonzero value on the left changes a number. -/
theorem xor_left_eq_self (m x : Nat) : m ^^^ x = x ↔ m = 0 := by
  constructor
  · intro h1
    exact Nat.xor_left_inj.mp (by rw [Nat.zero_xor]; exact h1)
  · intro h1
    simp [h1]

/-- XOR by a nonzero value on the right changes a number. -/
theorem xor_right_eq_self (x m : Nat) : x ^^^ m = x ↔ m = 0 := by
  rw [Nat.xor_comm]
  exact xor_left_eq_self m x

/-- C7: for every 6-byte serialized record that passes checksum validation,
flipping any single bit of any one of the five non-checksum bytes while
leaving the checksum byte unchanged makes validation false: the XOR checksum
detects every single-bit corruption. -/
theorem C7_single_bit_flip_detected (B : List Nat) (h : B.length = 6)
    (hv : validate (deserialize B) = true) (k bit : Nat) (hk : k < 5)
    (hbit : bit < 8) :
    validate (deserialize (List.set B k (B.getD k 0 ^^^ 2 ^ bit))) = false := by
  rcases B with _ | ⟨b0, _ | ⟨b1, _ | ⟨b2, _ | ⟨b3, _ | ⟨b4, _ | ⟨b5, rest⟩⟩⟩⟩⟩⟩ <;>
    simp_all [validate, deserialize, serialize, calculateChecksum, sizeofData]
  interval_cases k <;>
    (simp_all
     rw [← hv]
     simp only [Nat.xor_assoc]
     simp only [Nat.xor_right_inj, xor_left_eq_self, xor_right_eq_self]
     exact (Nat.two_pow_pos bit).ne')

/-- Witness for C7: flipping bit 0 of byte 0 of the valid POS / id 1 record
bytes makes validation fail. -/
theorem C7_witness :
    ([80, 79, 83, 0, 1, 77] : List Nat).length = 6 ∧
      validate (deserialize [80, 79, 83, 0, 1, 77]) = true ∧
      (0 : Nat) < 5 ∧ (0 : Nat) < 8 ∧
      validate (deserialize (List.set [80, 79, 83, 0, 1, 77] 0
        (([80, 79, 83, 0, 1, 77] : List Nat).getD 0 0 ^^^ 2 ^ 0))) = false :=
  ⟨by decide, by decide, by decide, by decide,
    C7_single_bit_flip_detected [80, 79, 83, 0, 1, 77] (by decide) (by decide)
      0 0 (by decide) (by decide)⟩

/-- The global table JumperCableData tags[] = \x7b POS 1, POS 2, NEG 3,
NEG 4 \x7d, each with checksum initialized to 0. "POS" is the bytes
80, 79, 83, 0 and "NEG" is 78, 69, 71, 0 (null padding included). -/
def tags : List JumperCableData :=
  [JumperCableData.mk [80, 79, 83, 0] 1 0,
   JumperCableData.mk [80, 79, 83, 0] 2 0,
   JumperCableData.mk [78, 69, 71, 0] 3 0,
   JumperCableData.mk [78, 69, 71, 0] 4 0]

/-- The for-loop of writeAllTags as it acts on the global tags table: for
each index i in order, tags[i].checksum = calculateChecksum(&tags[i],
sizeof - 1). Fuel counts the remaining iterations. -/
def writeAllTagsAux : Nat → Nat → List JumperCableData → List JumperCableData
  | 0, _, ts => ts
  | fuel + 1, i, ts =>
    writeAllTagsAux fuel (i + 1) (ts.set i (setChecksum (ts.getD i (JumperCableData.mk [] 0 0))))

/-- The state of the global tags table after writeAllTags has processed all
NUM_TAGS entries. -/
def writeAllTagsTable : List JumperCableData :=
  writeAllTagsAux NUM_TAGS 0 tags

/-- C9: after the write phase has processed the global table, every entry
satisfies the validity invariant: its checksum field equals the
XOR-reduction of its first 5 serialized bytes, equivalently the
XOR-reduction over all 6 serialized bytes is 0; and all four entries were
processed. -/
theorem C9_write_phase_table_invariant :
    (writeAllTagsTable.all fun d =>
        (d.checksum == calculateChecksum (serialize d) (sizeofData - 1)) &&
          (List.foldl (fun sum b => sum ^^^ b) 0 (serialize d) == 0)) = true ∧
      writeAllTagsTable.length = NUM_TAGS := by
  decide

/-- C10: the XOR checksum does not detect byte transposition: the two
distinct 6-byte sequences obtained from one another by swapping the unequal
bytes at offsets 0 and 1 both pass checksum validation. -/
theorem C10_transposition_undetected :
    validate (deserialize [80, 79, 83, 0, 1, 77]) = true ∧
      validate (deserialize [79, 80, 83, 0, 1, 77]) = true ∧
      ([80, 79, 83, 0, 1, 77] : List Nat) ≠ [79, 80, 83, 0, 1, 77] ∧
      ([79, 80, 83, 0, 1, 77] : List Nat) =
        (([80, 79, 83, 0, 1, 77] : List Nat).set 0
            (([80, 79, 83, 0, 1, 77] : List Nat).getD 1 0)).set 1
          (([80, 79, 83, 0, 1, 77] : List Nat).getD 0 0) ∧
      ([80, 79, 83, 0, 1, 77] : List Nat).getD 0 0 ≠
        ([80, 79, 83, 0, 1, 77] : List Nat).getD 1 0 := by
  decide

/-- Commands the firmware can issue to the reader collaborator. -/
inductive Command where
  | writePage : Nat → List Nat → Command
  | readPages : Nat → Command
  | haltTag : Command
  | stopCrypto : Command
deriving DecidableEq

/-- Whether a command mutates tag memory (MIFARE_Ultralight_Write). -/
def isWriteCommand : Command → Bool
  | Command.writePage _ _ => true
  | _ => false

/-- Environment of one loop iteration: whether PICC_IsNewCardPresent and
PICC_ReadCardSerial see a tag, and what MIFARE_Read would return. -/
structure ScanEnv where
  cardPresent : Bool
  readResult : Option (List Nat)

/-- The mutable globals of the sequencer: the scanModeActive flag and the
tags table. -/
structure SysState where
  scanModeActive : Bool
  tagTable : List JumperCableData
deriving DecidableEq

/-- bool scanModeActive = false; plus the initial tags table. -/
def initState : SysState :=
  { scanModeActive := false, tagTable := tags }

/-- Commands issued by one call of scanMode(): early return when no card is
present; otherwise readStructFromTag(START_PAGE), which performs one block
read and then halts the tag and resets authentication. -/
def scanModeCommands (env : ScanEnv) : List Command :=
  if env.cardPresent then
    [Command.readPages START_PAGE, Command.haltTag, Command.stopCrypto]
  else []

/-- void setup(): runs writeAllTags() over the table, then sets
scanModeActive = true. -/
def setup (s : SysState) : SysState :=
  { scanModeActive := true, tagTable := writeAllTagsAux NUM_TAGS 0 s.tagTable }

/-- void loop(): if (scanModeActive) scanMode(); — scanMode changes no
global state and issues only read-side commands. -/
def loopStep (s : SysState) (env : ScanEnv) : SysState × List Command :=
  if s.scanModeActive then (s, scanModeCommands env) else (s, [])

/-- Iterating loop() over a sequence of environments, accumulating the
commands issued to the reader. -/
def loopRun (s : SysState) : List ScanEnv → SysState × List Command
  | [] => (s, [])
  | env :: envs =>
    let step := loopStep s env
    let rest := loopRun step.1 envs
    (rest.1, step.2 ++ rest.2)

/-- The loop never changes the global state and never issues a tag write. -/
theorem loopRun_no_writes (envs : List ScanEnv) :
    ∀ s : SysState, (loopRun s envs).1 = s ∧
      ((loopRun s envs).2.all fun c => !(isWriteCommand c)) = true := by
  induction envs with
  | nil =>
    intro s
    simp [loopRun]
  | cons env envs ih =>
    intro s
    obtain ⟨ih1, ih2⟩ := ih s
    by_cases hs : s.scanModeActive <;>
      by_cases hc : env.cardPresent <;>
        simp_all [loopRun, loopStep, scanModeCommands, isWriteCommand]

/-- C6: after setup finishes the write phase for the whole table it sets
scanModeActive, and from then on every iteration of loop() leaves
scanModeActive true and issues no tag write: the system never re-enters the
write phase. -/
theorem C6_scan_phase_is_terminal (s : SysState) (envs : List ScanEnv) :
    (setup s).scanModeActive = true ∧
      (loopRun (setup s) envs).1.scanModeActive = true ∧
      ((loopRun (setup s) envs).2.all fun c => !(isWriteCommand c)) = true := by
  obtain ⟨h1, h2⟩ := loopRun_no_writes envs (setup s)
  exact ⟨rfl, by rw [h1]; rfl, h2⟩

end NTag
